import Mathlib

/-
Verification of the afFIRM request-dispatch and diagnostic-persistence engine.

This file gives a shallow embedding, in Lean 4, of the core components of the
repository and settles the specified properties against it:

- `firmae_lib/analysis.py` : tail extraction and the heuristic log classifier
  (Python regular-expression search is embedded by a Brzozowski-derivative
  matcher over hand-transcribed pattern syntax trees);
- `firmae_lib/logger.py`   : the append-only emulation ledger and its
  sequence-number recovery;
- `firmae_lib/sqlite_helper.py` : the SQLite knowledge-base store, modelled as
  an explicit state (tables as optional row lists);
- `firmae_mcp.py`          : the bounded process-execution primitive and the
  JSON-RPC dispatch loop.  Filesystem contents, subprocess behaviour and
  wall-clock durations are inputs of the embedding; the Python code's
  normalisation of those inputs is what is modelled.
-/

-- ===========================================================================
-- Generic helpers shared by several embedded modules
-- ===========================================================================

/-- Python `str.strip()` whitespace test (ASCII subset: space, tab, LF, CR,
vertical tab, form feed). -/
def isPySpace (c : Char) : Bool :=
  c == ' ' || c == '\t' || c == '\n' || c == '\r' ||
  c == Char.ofNat 11 || c == Char.ofNat 12

/-- Python `str.strip()` on a character list. -/
def pyStripList (cs : List Char) : List Char :=
  ((cs.dropWhile isPySpace).reverse.dropWhile isPySpace).reverse

/-- Python `str.strip()`. -/
def pyStrip (s : String) : String := String.mk (pyStripList s.data)

/-- Numeric value of a list of decimal digit characters. -/
def digitsVal (ds : List Char) : Int :=
  ds.foldl (fun acc c => acc * 10 + ((c.toNat : Int) - ('0'.toNat : Int))) 0

/-- Python `int(s)`: strips whitespace, accepts an optional sign followed by
at least one decimal digit; anything else raises (here: `none`). -/
def parseIntOpt (s : String) : Option Int :=
  let cs := pyStripList s.data
  let signed : Int × List Char :=
    match cs with
    | '+' :: t => (1, t)
    | '-' :: t => (-1, t)
    | t => (1, t)
  if signed.2 ≠ [] ∧ signed.2.all Char.isDigit then
    some (signed.1 * digitsVal signed.2)
  else none

/-- Python string comparison: lexicographic on code points
(`a <= b` as used by `sorted`). -/
def pyCharListLe : List Char → List Char → Bool
  | [], _ => true
  | _ :: _, [] => false
  | a :: as, b :: bs =>
      if a.toNat < b.toNat then true
      else if b.toNat < a.toNat then false
      else pyCharListLe as bs

/-- Python `<=` on strings. -/
def pyLe (a b : String) : Bool := pyCharListLe a.data b.data

theorem pyCharListLe_total (xs ys : List Char) :
    pyCharListLe xs ys = true ∨ pyCharListLe ys xs = true := by
  induction xs generalizing ys with
  | nil => exact Or.inl rfl
  | cons x xs ih =>
    cases ys with
    | nil => exact Or.inr rfl
    | cons y ys =>
      simp only [pyCharListLe]
      rcases Nat.lt_trichotomy x.toNat y.toNat with h | h | h
      · left; simp [h]
      · have h1 : ¬ x.toNat < y.toNat := by omega
        have h2 : ¬ y.toNat < x.toNat := by omega
        simpa [h1, h2] using ih ys
      · right; simp [h, Nat.lt_asymm h]

theorem pyCharListLe_trans (xs ys zs : List Char)
    (h1 : pyCharListLe xs ys = true) (h2 : pyCharListLe ys zs = true) :
    pyCharListLe xs zs = true := by
  induction xs generalizing ys zs with
  | nil => rfl
  | cons x xs ih =>
    cases ys with
    | nil => simp [pyCharListLe] at h1
    | cons y ys =>
      cases zs with
      | nil => simp [pyCharListLe] at h2
      | cons z zs =>
        simp only [pyCharListLe] at h1 h2 ⊢
        by_cases hxy : x.toNat < y.toNat <;> by_cases hyz : y.toNat < z.toNat
        · simp [Nat.lt_trans hxy hyz]
        · by_cases hzy : z.toNat < y.toNat
          · simp [hyz, hzy] at h2
          · have : x.toNat < z.toNat := by omega
            simp [this]
        · by_cases hyx : y.toNat < x.toNat
          · simp [hxy, hyx] at h1
          · have : x.toNat < z.toNat := by omega
            simp [this]
        · by_cases hyx : y.toNat < x.toNat
          · simp [hxy, hyx] at h1
          · by_cases hzy : z.toNat < y.toNat
            · simp [hyz, hzy] at h2
            · have hxz : ¬ x.toNat < z.toNat := by omega
              have hzx : ¬ z.toNat < x.toNat := by omega
              simp only [hxy, hyx, if_neg, ite_false] at h1
              simp only [hyz, hzy, if_neg, ite_false] at h2
              simpa [hxz, hzx] using ih ys zs h1 h2

instance : IsTotal String (fun a b => pyLe a b = true) :=
  ⟨fun a b => pyCharListLe_total a.data b.data⟩

instance : IsTrans String (fun a b => pyLe a b = true) :=
  ⟨fun a b c => pyCharListLe_trans a.data b.data c.data⟩

-- ===========================================================================
-- Embedded regular-expression matcher (Python re.search semantics for the
-- constructs used by the source patterns: literals, '.', \d, \b, |, *, +)
-- ===========================================================================

/-- Single-character atoms appearing in the source patterns. -/
inductive RChar where
  | lit (c : Char)
  | any
  | digit
deriving DecidableEq

/-- Pattern syntax trees for the source's regular expressions. -/
inductive Regex where
  | emp
  | eps
  | ch (k : RChar)
  | seq (a b : Regex)
  | alt (a b : Regex)
  | star (a : Regex)
  | wordB
deriving DecidableEq

/-- Character match; `ci` is `re.IGNORECASE` (ASCII case folding). `.` does not
match a newline (`re.DOTALL` is never set in the source). -/
def rcharMatches (ci : Bool) : RChar → Char → Bool
  | .lit l, c => if ci then c.toLower = l.toLower else c = l
  | .any, c => c ≠ '\n'
  | .digit, c => c.isDigit

/-- Python `\w` (ASCII subset). -/
def isWordChar (c : Char) : Bool := c.isAlphanum || c = '_'

/-- Python `\b`: the word-character status changes between the previous and the
next character (either may be missing at the string's ends). -/
def isBoundary (p n : Option Char) : Bool :=
  (match p with | some c => isWordChar c | none => false) !=
  (match n with | some c => isWordChar c | none => false)

/-- Nullability (matching the empty string) at a position whose neighbouring
characters are `p` and `n`; the zero-width `\b` consults them. -/
def rnull (p n : Option Char) : Regex → Bool
  | .emp => false
  | .eps => true
  | .ch _ => false
  | .seq a b => rnull p n a && rnull p n b
  | .alt a b => rnull p n a || rnull p n b
  | .star _ => true
  | .wordB => isBoundary p n

/-- Simplifying sequencing (keeps derivatives small). -/
def mseq : Regex → Regex → Regex
  | .emp, _ => .emp
  | _, .emp => .emp
  | .eps, b => b
  | a, .eps => a
  | a, b => .seq a b

/-- Simplifying alternation. -/
def malt : Regex → Regex → Regex
  | .emp, b => b
  | a, .emp => a
  | a, b => .alt a b

/-- Brzozowski derivative with respect to `c`, where `p` is the character
before `c` (context for `\b`). -/
def rderiv (ci : Bool) (p : Option Char) (c : Char) : Regex → Regex
  | .emp => .emp
  | .eps => .emp
  | .ch k => if rcharMatches ci k c then .eps else .emp
  | .seq a b =>
      if rnull p (some c) a then malt (mseq (rderiv ci p c a) b) (rderiv ci p c b)
      else mseq (rderiv ci p c a) b
  | .alt a b => malt (rderiv ci p c a) (rderiv ci p c b)
  | .star a => mseq (rderiv ci p c a) (.star a)
  | .wordB => .emp

/-- Does `r` match some initial segment of the remaining input, the previous
character being `p`? -/
def rmatchInit (ci : Bool) : Option Char → Regex → List Char → Bool
  | p, r, [] => rnull p none r
  | p, r, c :: rest => rnull p (some c) r || rmatchInit ci (some c) (rderiv ci p c r) rest

/-- Try a match starting at every position (the scan of `re.search`). -/
def rsearchAux (ci : Bool) (r : Regex) : Option Char → List Char → Bool
  | p, [] => rmatchInit ci p r []
  | p, c :: rest => rmatchInit ci p r (c :: rest) || rsearchAux ci r (some c) rest

/-- `bool(re.search(r, s, flags))`, `ci` giving `re.IGNORECASE`. -/
def regexSearch (ci : Bool) (r : Regex) (s : String) : Bool :=
  rsearchAux ci r none s.data

/-- A literal string as a pattern. -/
def rlit (s : String) : Regex :=
  s.data.foldr (fun c r => Regex.seq (.ch (.lit c)) r) .eps

/-- Concatenation of a pattern list. -/
def rcat (rs : List Regex) : Regex := rs.foldr .seq .eps

/-- Alternation of a pattern list (`a|b|c`). -/
def raltL : List Regex → Regex
  | [] => .emp
  | [r] => r
  | r :: rs => .alt r (raltL rs)

/-- `.*` -/
def dotStar : Regex := .star (.ch .any)

/-- `\d+` -/
def dplus : Regex := .seq (.ch .digit) (.star (.ch .digit))

-- ===========================================================================
-- firmae_lib/analysis.py
-- ===========================================================================

-- The seven (label, pattern) rules of `_analyze_logs` (analysis.py lines
-- 38-53), transcribed pattern by pattern; all are searched with re.I.

/-- `(mke2fs|e2fsck).*(error|aborted|unable|fail)|No such file or directory.*(root|image)|mount:.*failed` -/
def patFsImage : Regex := raltL [
  rcat [raltL [rlit "mke2fs", rlit "e2fsck"], dotStar,
        raltL [rlit "error", rlit "aborted", rlit "unable", rlit "fail"]],
  rcat [rlit "No such file or directory", dotStar, raltL [rlit "root", rlit "image"]],
  rcat [rlit "mount:", dotStar, rlit "failed"]]

/-- `(Unknown architecture|binfmt_misc|Exec format error|qemu-.*: Could not open|get architecture.*fail)` -/
def patArch : Regex := raltL [
  rlit "Unknown architecture", rlit "binfmt_misc", rlit "Exec format error",
  rcat [rlit "qemu-", dotStar, rlit ": Could not open"],
  rcat [rlit "get architecture", dotStar, rlit "fail"]]

/-- `(Kernel panic|Unable to mount root|Segmentation fault|qemu: .*error|end Kernel panic)` -/
def patQemu : Regex := raltL [
  rlit "Kernel panic", rlit "Unable to mount root", rlit "Segmentation fault",
  rcat [rlit "qemu: ", dotStar, rlit "error"],
  rlit "end Kernel panic"]

/-- `(tap|bridge|br_add_if|br_dev_ioctl|SIOCSIF).* (fail|error|denied)|Network unreachable` -/
def patNet : Regex := raltL [
  rcat [raltL [rlit "tap", rlit "bridge", rlit "br_add_if", rlit "br_dev_ioctl", rlit "SIOCSIF"],
        dotStar, rlit " ", raltL [rlit "fail", rlit "error", rlit "denied"]],
  rlit "Network unreachable"]

/-- `(Permission denied|Operation not permitted|cap_net_admin)` -/
def patPerm : Regex := raltL [
  rlit "Permission denied", rlit "Operation not permitted", rlit "cap_net_admin"]

/-- `\b(timeout|timed out)\b` -/
def patTimeout : Regex :=
  rcat [.wordB, .alt (rlit "timeout") (rlit "timed out"), .wordB]

/-- `(Web service on .* (down|failed)|httpd.*fail|lighttpd.*fail|nginx.*fail)` -/
def patWeb : Regex := raltL [
  rcat [rlit "Web service on ", dotStar, rlit " ", raltL [rlit "down", rlit "failed"]],
  rcat [rlit "httpd", dotStar, rlit "fail"],
  rcat [rlit "lighttpd", dotStar, rlit "fail"],
  rcat [rlit "nginx", dotStar, rlit "fail"]]

/-- The PATTERNS table of `_analyze_logs` in source order. -/
def ANALYZE_PATTERNS : List (String × Regex) := [
  ("Filesystem image build error", patFsImage),
  ("Architecture / binfmt issue", patArch),
  ("QEMU boot/kernel failure", patQemu),
  ("Network bridging/tap error", patNet),
  ("Permission / capability problem", patPerm),
  ("Timeout / watchdog", patTimeout),
  ("Web service did not come up", patWeb)]

/-- `Network reachable on \d+\.\d+\.\d+\.\d+` (searched without flags, so
case-sensitively, analysis.py line 61). -/
def ipPattern : Regex := rcat [rlit "Network reachable on ",
  dplus, rlit ".", dplus, rlit ".", dplus, rlit ".", dplus]

/-- `Web service on .*` (searched without flags, analysis.py line 62). -/
def webOnPattern : Regex := rcat [rlit "Web service on ", dotStar]

/-- `"\n".join(v for v in text_by_name.values() if v)` — a LogBundle is an
association list in insertion order, as a Python dict iterates. -/
def combinedText (text_by_name : List (String × String)) : String :=
  String.intercalate "\n" ((text_by_name.map Prod.snd).filter (fun v => v != ""))

/-- The `reasons` list accumulated by `_analyze_logs` before the final
`sorted(set(...))`: one label per matching rule, in table order, then the
supplementary makeNetwork.log rule (analysis.py lines 55-63). -/
def rawReasons (text_by_name : List (String × String)) : List String :=
  if (List.lookup "makeNetwork.log" text_by_name).getD "" ≠ "" ∧
     regexSearch false ipPattern ((List.lookup "makeNetwork.log" text_by_name).getD "") = true ∧
     regexSearch false webOnPattern (combinedText text_by_name) = false
  then ((ANALYZE_PATTERNS.filter
          (fun tp => regexSearch true tp.2 (combinedText text_by_name))).map Prod.fst)
        ++ ["Network reachable but web service not detected"]
  else (ANALYZE_PATTERNS.filter
          (fun tp => regexSearch true tp.2 (combinedText text_by_name))).map Prod.fst

/-- `_analyze_logs` (analysis.py lines 34-65): the triggered labels,
deduplicated and sorted as Python text (`sorted(set(reasons))`). -/
def _analyze_logs (text_by_name : List (String × String)) : List String :=
  List.insertionSort (fun a b => pyLe a b = true) (rawReasons text_by_name).dedup

/-- Python `str.splitlines()` line-break characters (code points below
0x10000 relevant here). -/
def isLineBreakChar (c : Char) : Bool :=
  c == '\n' || c == '\r' || c.toNat == 0x0b || c.toNat == 0x0c ||
  c.toNat == 0x1c || c.toNat == 0x1d || c.toNat == 0x1e || c.toNat == 0x85 ||
  c.toNat == 0x2028 || c.toNat == 0x2029

/-- Python `str.splitlines()` (keepends=False); `\r\n` is one break and a
trailing break produces no empty final line. -/
def pySplitLinesAux : List Char → List Char → List (List Char)
  | acc, [] => if acc.isEmpty then [] else [acc.reverse]
  | acc, '\r' :: '\n' :: rest => acc.reverse :: pySplitLinesAux [] rest
  | acc, c :: rest =>
      if isLineBreakChar c then acc.reverse :: pySplitLinesAux [] rest
      else pySplitLinesAux (c :: acc) rest

/-- What the filesystem offers `_safe_tail` at a path: no file, a readable
file's contents (as decoded characters), or a file whose open/read raises
with a message rendered by Python as `str(e)`. -/
inductive FileState where
  | absent
  | readable (data : List Char)
  | readError (emsg : String)

/-- `_safe_tail` (analysis.py lines 14-31).  The byte-bounded seek is modelled
at character granularity (`decode("utf-8", "replace")` is the identity on the
decoded character list).  The function is total: no branch raises. -/
def _safe_tail (path : String) (fs : FileState) (max_bytes max_lines : Nat) : String :=
  match fs with
  | .absent => ""
  | .readable data =>
      let kept := if max_bytes < data.length then data.drop (data.length - max_bytes) else data
      let lines := pySplitLinesAux [] kept
      -- Python `lines[-max_lines:]`; for max_lines = 0 that slice is the whole list
      let tailLines := if max_lines = 0 then lines else lines.drop (lines.length - max_lines)
      String.intercalate "\n" (tailLines.map (fun l => String.mk l))
  | .readError emsg => "[could not read " ++ path ++ ": " ++ emsg ++ "]"

-- ===========================================================================
-- firmae_lib/logger.py
-- ===========================================================================

/-- `_to_bool_str` (logger.py lines 3-4). -/
def _to_bool_str (b : Bool) : String := if b then "true" else "false"

/-- `_safe_read` (logger.py lines 6-13): a missing or unreadable file is
`none` and yields `""`; otherwise the stripped file text. -/
def _safe_read (file : Option String) : String :=
  match file with
  | none => ""
  | some s => pyStrip s

/-- Mantissa/exponent reading used to decide `float(s) != 0.0` without real
arithmetic: a parsed float is non-zero exactly when its mantissa has a
non-zero digit (`inf` and `nan` both compare `!= 0.0` as `True`). -/
def floatDigits (cs : List Char) : List Char × List Char :=
  (cs.takeWhile Char.isDigit, cs.dropWhile Char.isDigit)

/-- `float(s) != 0.0` on an already stripped, lowercased string; `none` when
`float` raises.  Grammar: optional sign, then `inf`/`infinity`/`nan` or
digits with optional fraction and exponent (underscored literals are not
treated). -/
def _float_nonzero (s : String) : Option Bool :=
  let cs0 := s.data
  let cs := match cs0 with
    | '+' :: t => t
    | '-' :: t => t
    | t => t
  if cs = "inf".data ∨ cs = "infinity".data ∨ cs = "nan".data then some true
  else
    let ip := floatDigits cs
    let fp : List Char × List Char :=
      match ip.2 with
      | '.' :: t => floatDigits t
      | _ => ([], ip.2)
    if ip.1 = [] ∧ fp.1 = [] then none
    else
      let expOk : Bool :=
        match fp.2 with
        | [] => true
        | 'e' :: t =>
            let t2 := match t with
              | '+' :: u => u
              | '-' :: u => u
              | u => u
            let ed := floatDigits t2
            decide (ed.1 ≠ [] ∧ ed.2 = [])
        | _ => false
      if expOk then some (ip.1.any (fun c => c ≠ '0') || fp.1.any (fun c => c ≠ '0'))
      else none

/-- `_parse_bool` (logger.py lines 15-40). -/
def _parse_bool (s? : Option String) : Option Bool :=
  match s? with
  | none => none
  | some s0 =>
      let s := (pyStrip s0).toLower
      if s = "" then none
      else if s ∈ ["1", "true", "yes", "y", "ok", "success", "on", "reachable", "up"] then
        some true
      else if s ∈ ["0", "false", "no", "n", "fail", "failed", "off", "unreachable", "down"] then
        some false
      else _float_nonzero s

/-- First comma-separated field of a row (`row.split(",")[0]`). -/
def firstField (s : String) : String := String.mk (s.data.takeWhile (fun c => c ≠ ','))

/-- `_next_record_number` (logger.py lines 42-63).  The ledger file is an
input: `none` when absent, otherwise its lines (newlines stripped).  With at
least two non-blank lines the last one's first field is parsed with `int`;
on failure the fallback counts raw lines (`max(1, line_count)`); with fewer
than two non-blank lines the function returns `0 + 1 = 1`. -/
def _next_record_number (file : Option (List String)) : Int :=
  match file with
  | none => 1
  | some lines =>
      let rows := (lines.map pyStrip).filter (fun r => r != "")
      if 2 ≤ rows.length then
        match parseIntOpt (firstField (rows.getLastD "")) with
        | some n => n + 1
        | none => max 1 (lines.length : Int)
      else 1

/-- The signal files of the newest `scratch/<iid>` directory as `_safe_read`
sees them (`none` = missing or unreadable). -/
structure ScratchFiles where
  name : Option String
  architecture : Option String
  brand : Option String
  ping : Option String
  web : Option String
  result : Option String

/-- One ledger row as built by `append_emulation_record`. -/
structure EmuRow where
  number : Int
  firmware_name : String
  architecture : String
  brand : String
  ping : String
  web : String
  result : String
deriving DecidableEq

/-- `append_emulation_record` (logger.py lines 65-154), returning the row it
appends.  `ledger` is the current `emulation_records.csv` (as for
`_next_record_number`); `latest` the newest numeric scratch directory, if
any; `fw_base` models `os.path.splitext(os.path.basename(fw_path))[0]`.
The CSV write itself is a filesystem effect outside the returned value. -/
def append_emulation_record (ledger : Option (List String)) (latest : Option ScratchFiles)
    (fw_base : String) (brand : String) (exit_code : Int) : EmuRow :=
  match latest with
  | none =>
      { number := _next_record_number ledger
        firmware_name := fw_base
        architecture := ""
        brand := brand
        ping := _to_bool_str false
        web := _to_bool_str false
        result := _to_bool_str (exit_code == 0) }
  | some d =>
      { number := _next_record_number ledger
        firmware_name := if _safe_read d.name ≠ "" then _safe_read d.name else fw_base
        architecture := if _safe_read d.architecture ≠ "" then _safe_read d.architecture else ""
        brand := if _safe_read d.brand ≠ "" then _safe_read d.brand else brand
        ping := _to_bool_str ((_parse_bool (some (_safe_read d.ping))).getD false)
        web := _to_bool_str ((_parse_bool (some (_safe_read d.web))).getD false)
        result := _to_bool_str ((_parse_bool (some (_safe_read d.result))).getD (exit_code == 0)) }

/-- Spec-side reading of claim C2 for comparison with the code: the maximum
sequence number recorded in the ledger, i.e. the maximum over the parsed
first fields of the data rows (all non-blank rows after the header). -/
def specMaxRecordedSeq (file : Option (List String)) : Option Int :=
  match file with
  | none => none
  | some lines =>
      let rows := (lines.map pyStrip).filter (fun r => r != "")
      ((rows.drop 1).filterMap (fun r => parseIntOpt (firstField r))).max?

-- ===========================================================================
-- firmae_lib/sqlite_helper.py
-- ===========================================================================

/-- One `runs` row (sqlite_helper.py lines 13-23). -/
structure RunRow where
  id : Nat
  ts : String
  brand : Option String
  model : Option String
  firmware : String
  iid_dir : Option String
  exit_code : Int
  result_bool : Option Bool
  duration_sec : Rat
deriving DecidableEq

/-- One `analyses` row (sqlite_helper.py lines 25-33); `reasons_json` is the
serialized JSON text, if any. -/
structure AnalysisRow where
  id : Nat
  run_id : Nat
  at_ts : String
  source : String
  summary : Option String
  content : List Char
  reasons_json : Option String
deriving DecidableEq

/-- One `analyses_fts` row (sqlite_helper.py lines 35-37). -/
structure FtsRow where
  rowid : Nat
  summary : String
  content : List Char
deriving DecidableEq

/-- The SQLite database state: each table is `none` while it does not exist
yet; `journal_wal` records the PRAGMA having been applied. -/
structure KBState where
  journal_wal : Bool
  runs : Option (List RunRow)
  analyses : Option (List AnalysisRow)
  analyses_fts : Option (List FtsRow)
deriving DecidableEq

/-- `kb_init` (sqlite_helper.py lines 7-40): `CREATE TABLE IF NOT EXISTS`
leaves an existing table, with its rows, untouched and creates a missing one
empty; the WAL pragma is (re)applied. -/
def kb_init (db : KBState) : KBState :=
  { journal_wal := true
    runs := some (db.runs.getD [])
    analyses := some (db.analyses.getD [])
    analyses_fts := some (db.analyses_fts.getD []) }

/-- `cur.lastrowid` for an AUTOINCREMENT key: one more than the largest id
ever used (no deletes occur in this model). -/
def nextRowId (ids : List Nat) : Nat := ids.foldr max 0 + 1

/-- `kb_insert_run` (sqlite_helper.py lines 42-68); `now_iso` is the
environment-supplied `datetime.utcnow().isoformat(timespec="seconds")`. -/
def kb_insert_run (db : KBState) (now_iso : String) (brand model : Option String)
    (firmware : String) (iid_dir : Option String) (exit_code : Int)
    (result_bool : Option Bool) (duration_sec : Rat) : KBState × Nat :=
  let db := kb_init db
  let rows := db.runs.getD []
  let rid := nextRowId (rows.map (fun r => r.id))
  let row : RunRow :=
    { id := rid, ts := now_iso ++ "Z", brand := brand, model := model,
      firmware := firmware, iid_dir := iid_dir, exit_code := exit_code,
      result_bool := result_bool, duration_sec := duration_sec }
  ({ db with runs := some (rows ++ [row]) }, rid)

/-- The truncation marker of `kb_insert_analysis`. -/
def TRUNC_MARKER : List Char := "\n\n[truncated]".data

/-- The `bounded` content of `kb_insert_analysis` (sqlite_helper.py line 81):
content at most `max_content` characters long is kept verbatim, longer
content is cut to its first `max_content` characters plus the marker.
The source's default for `max_content` is 200000. -/
def kb_bounded (content : List Char) (max_content : Nat) : List Char :=
  if content.length ≤ max_content then content
  else content.take max_content ++ TRUNC_MARKER

/-- `kb_insert_analysis` (sqlite_helper.py lines 70-100): inserts the bounded
content into `analyses` and mirrors `(rowid, summary or "", bounded)` into
the full-text index, returning the new row id. -/
def kb_insert_analysis (db : KBState) (now_iso : String) (run_id : Nat)
    (source : String) (summary : Option String) (content : List Char)
    (reasons_json : Option String) (max_content : Nat) : KBState × Nat :=
  let db := kb_init db
  let bounded := kb_bounded content max_content
  let rows := db.analyses.getD []
  let rowid := nextRowId (rows.map (fun r => r.id))
  let row : AnalysisRow :=
    { id := rowid, run_id := run_id, at_ts := now_iso ++ "Z", source := source,
      summary := summary, content := bounded, reasons_json := reasons_json }
  let fts := db.analyses_fts.getD [] ++ [{ rowid := rowid, summary := summary.getD "", content := bounded : FtsRow }]
  ({ db with analyses := some (rows ++ [row]), analyses_fts := some fts }, rowid)

/-- Content of the most recently inserted `analyses` row. -/
def lastAnalysisContent (db : KBState) : Option (List Char) :=
  ((db.analyses.getD []).getLast?).map (fun r => r.content)

-- ===========================================================================
-- firmae_mcp.py : run_cmd (lines 39-92)
-- ===========================================================================

-- The ANSI_ESCAPE pattern of run_cmd (case-sensitive, not part of the
-- re.I rule table): \x1B(?:[@-Z\\-_]|\[[0-?]*[ -/]*[@-~]).

/-- `[@-Z\\-_]` : 0x40-0x5A or 0x5C-0x5F. -/
def isAnsiSingleFinal (c : Char) : Bool :=
  (0x40 ≤ c.toNat && c.toNat ≤ 0x5A) || (0x5C ≤ c.toNat && c.toNat ≤ 0x5F)

/-- `[0-?]` : 0x30-0x3F. -/
def isCsiParam (c : Char) : Bool := 0x30 ≤ c.toNat && c.toNat ≤ 0x3F

/-- The class of space through slash, i.e. 0x20-0x2F. -/
def isCsiInter (c : Char) : Bool := 0x20 ≤ c.toNat && c.toNat ≤ 0x2F

/-- `[@-~]` : 0x40-0x7E. -/
def isCsiFinal (c : Char) : Bool := 0x40 ≤ c.toNat && c.toNat ≤ 0x7E

/-- Length of the ANSI_ESCAPE match starting at the head of the list, if any
(the pattern's two alternatives are disjoint on the second character, so the
greedy scan is deterministic). -/
def ansiMatchLen (cs : List Char) : Option Nat :=
  match cs with
  | esc :: d :: rest =>
      if esc = Char.ofNat 0x1B then
        if isAnsiSingleFinal d then some 2
        else if d = '[' then
          let ps := rest.takeWhile isCsiParam
          let rest2 := rest.drop ps.length
          let is := rest2.takeWhile isCsiInter
          let rest3 := rest2.drop is.length
          match rest3 with
          | f :: _ => if isCsiFinal f then some (3 + ps.length + is.length) else none
          | [] => none
        else none
      else none
  | _ => none

/-- `re.sub` scan: replace each non-overlapping match by nothing, moving one
character forward where no match starts.  The fuel is the list length (every
step consumes at least one character). -/
def stripAnsiAux : Nat → List Char → List Char
  | 0, cs => cs
  | _ + 1, [] => []
  | n + 1, c :: rest =>
      match ansiMatchLen (c :: rest) with
      | some k => stripAnsiAux n ((c :: rest).drop k)
      | none => c :: stripAnsiAux n rest

/-- `_strip_ansi` of run_cmd (firmae_mcp.py lines 58-62). -/
def _strip_ansi (s : String) : String := String.mk (stripAnsiAux s.data.length s.data)

/-- What `subprocess.run` did for this invocation: the command assembly and
the subprocess itself are the environment; run_cmd normalises the four
possible results.  Each constructor carries the branch's captured text
(after `_to_str`: already decoded, `None` as `""`) and the wall-clock
duration measured in that branch. -/
inductive LaunchResult where
  | completed (returncode : Int) (stdout stderr : String) (dur : Rat)
  | timedOut (stdout stderr : String) (dur : Rat)
  | fileNotFound (emsg : String) (dur : Rat)
  | otherError (emsg : String) (dur : Rat)

/-- The result tuple `(exit_code, stdout, stderr, duration)` of run_cmd. -/
structure Outcome where
  exit : Int
  stdout : String
  stderr : String
  duration : Rat

/-- The source's run_cmd (firmae_mcp.py lines 39-92); Lean reserves that
exact name, hence `runCmd`.  Normal completion passes the real exit code
through with ANSI-stripped text; timeout maps to 124 with `"\n[timeout]"`
appended to stderr; a missing executable maps to 127 and any other launch
failure to 1, both with `"[error] "` and the exception text. -/
def runCmd : LaunchResult → Outcome
  | .completed rc out err d => ⟨rc, _strip_ansi out, _strip_ansi err, d⟩
  | .timedOut out err d => ⟨124, _strip_ansi out, _strip_ansi err ++ "\n[timeout]", d⟩
  | .fileNotFound emsg d => ⟨127, "", "[error] " ++ emsg, d⟩
  | .otherError emsg d => ⟨1, "", "[error] " ++ emsg, d⟩

-- ===========================================================================
-- firmae_mcp.py : the dispatch loop (lines 1023-1095)
-- ===========================================================================

/-- One parsed inbound JSON message: `msg.get("id")`, `msg.get("method")`
and the fields of `msg.get("params", {})` that the loop reads. -/
structure CallParams where
  name : Option String
  protocolVersion : Option String

/-- A parsed request/notification. -/
structure Msg where
  id : Option Int
  method : Option String
  params : CallParams

/-- A tool reply body: the text blocks of `content` and the `isError` flag. -/
structure ToolResult where
  content : List String
  isError : Bool
deriving DecidableEq

/-- The `result` payloads the loop writes. -/
inductive Payload where
  | pingOk
  | initRes (protocolVersion : String)
  | nullRes
  | toolsListRes
  | resourcesListRes
  | promptsListRes
  | toolRes (r : ToolResult)
deriving DecidableEq

/-- One line written to stdout by `jwrite`: a result reply or an error
reply. -/
inductive RpcOut where
  | result (id : Option Int) (payload : Payload)
  | rpcError (id : Option Int) (code : Int) (message : String)
deriving DecidableEq

/-- What `handle_call(params)` did for this request: returned a ToolResult,
or raised (the string is `str(e)`).  `handle_call` performs I/O, so its
behaviour is an input of the embedding. -/
inductive HandlerOutcome where
  | returns (r : ToolResult)
  | raises (emsg : String)

/-- Python truthiness of `m` in `if mid is None and m:` for an optional
string. -/
def methodTruthy : Option String → Bool
  | none => false
  | some s => s != ""

/-- Python `f"...{m}"` rendering of the optional method. -/
def methodText : Option String → String
  | none => "None"
  | some s => s

/-- `SUPPORTED` (firmae_mcp.py line 11), as a list. -/
def SUPPORTED : List String := ["2025-03-26", "2024-11-05"]

/-- `choose_version` (lines 20-23): `sorted(SUPPORTED)[-1]` under Python
string order when the request is unsupported. -/
def choose_version (req : String) : String :=
  if req ∈ SUPPORTED then req
  else (List.insertionSort (fun a b => pyLe a b = true) SUPPORTED).getLastD ""

/-- `params.get("protocolVersion") or "2024-11-05"` (line 1043). -/
def pvOrDefault : Option String → String
  | some s => if s ≠ "" then s else "2024-11-05"
  | none => "2024-11-05"

/-- `LONG` (line 1073). -/
def LONG_TOOLS : List String := ["firmae.emulate"]

/-- One iteration of the read loop on a parsed message (lines 1029-1095):
the replies it eventually writes, including the reply a worker thread posts
for a long-running tools/call.  The ping branch precedes the notification
check; an inline (short) tools/call whose handler raises reaches the loop's
outer `except`, which writes a JSON-RPC error object with code -32603, while
the worker path catches the exception in `run_and_reply` and posts a normal
reply flagged `isError`. -/
def dispatchMsg (msg : Msg) (h : HandlerOutcome) : List RpcOut :=
  if msg.method = some "ping" then
    [.result (some (msg.id.getD 0)) .pingOk]
  else if msg.id = none ∧ methodTruthy msg.method = true then
    []
  else if msg.method = some "initialize" then
    [.result msg.id (.initRes (choose_version (pvOrDefault msg.params.protocolVersion)))]
  else if msg.method = some "shutdown" then
    [.result msg.id .nullRes]
  else if msg.method = some "tools/list" then
    [.result msg.id .toolsListRes]
  else if msg.method = some "resources/list" then
    [.result msg.id .resourcesListRes]
  else if msg.method = some "prompts/list" then
    [.result msg.id .promptsListRes]
  else if msg.method = some "tools/call" then
    if msg.params.name.getD "" ∈ LONG_TOOLS then
      match h with
      | .returns r => [.result msg.id (.toolRes r)]
      | .raises e => [.result msg.id (.toolRes ⟨["Internal error: " ++ e], true⟩)]
    else
      match h with
      | .returns r => [.result msg.id (.toolRes r)]
      | .raises e => [.rpcError msg.id (-32603) e]
  else
    [.rpcError msg.id (-32601) ("Method not found: " ++ methodText msg.method)]

/-- The read loop over a stream of parsed messages, each paired with its
handler behaviour: every iteration's body is wrapped in the loop's
try/except, so processing always continues with the next message. -/
def runLoop : List (Msg × HandlerOutcome) → List RpcOut
  | [] => []
  | (m, h) :: rest => dispatchMsg m h ++ runLoop rest

/-- Is an output line a `result` reply (as opposed to a JSON-RPC error
object)? -/
def isResultReply : RpcOut → Bool
  | .result _ _ => true
  | .rpcError _ _ _ => false

-- ===========================================================================
-- Claims
-- ===========================================================================

/-- C1 (amended): for every invocation, a timeout yields exit code 124 with
stderr ending in the `[timeout]` marker, a missing executable yields 127 and
any other launch failure yields 1; on normal completion the process's own
exit code is returned unchanged (so a process that itself exits with 124 or
127 produces those codes without the corresponding failure having
happened). -/
theorem runCmd_outcome_spec (r : LaunchResult) :
    (∀ out err d, r = .timedOut out err d →
        ( runCmd r).exit = 124 ∧ ∃ t, ( runCmd r).stderr = t ++ "[timeout]") ∧
    (∀ emsg d, r = .fileNotFound emsg d → ( runCmd r).exit = 127) ∧
    (∀ emsg d, r = .otherError emsg d → ( runCmd r).exit = 1) ∧
    (∀ rc out err d, r = .completed rc out err d → ( runCmd r).exit = rc) := by
  refine ⟨?_, ?_, ?_, ?_⟩
  · intro out err d hr
    subst hr
    refine ⟨rfl, _strip_ansi err ++ "\n", ?_⟩
    show _strip_ansi err ++ "\n[timeout]" = _strip_ansi err ++ "\n" ++ "[timeout]"
    rw [String.append_assoc]
    rfl
  · intro emsg d hr; subst hr; rfl
  · intro emsg d hr; subst hr; rfl
  · intro rc out err d hr; subst hr; rfl

/-- Witness for the amended C1 theorem at concrete launch results. -/
theorem runCmd_outcome_spec_witness :
    ( runCmd (.timedOut "" "partial" 0)).exit = 124 ∧
    (∃ t, ( runCmd (.timedOut "" "partial" 0)).stderr = t ++ "[timeout]") ∧
    ( runCmd (.fileNotFound "No such file" 0)).exit = 127 ∧
    ( runCmd (.otherError "boom" 0)).exit = 1 ∧
    ( runCmd (.completed 3 "" "" 0)).exit = 3 :=
  ⟨((runCmd_outcome_spec (.timedOut "" "partial" 0)).1 "" "partial" 0 rfl).1,
   ((runCmd_outcome_spec (.timedOut "" "partial" 0)).1 "" "partial" 0 rfl).2,
   (runCmd_outcome_spec (.fileNotFound "No such file" 0)).2.1 "No such file" 0 rfl,
   (runCmd_outcome_spec (.otherError "boom" 0)).2.2.1 "boom" 0 rfl,
   (runCmd_outcome_spec (.completed 3 "" "" 0)).2.2.2 3 "" "" 0 rfl⟩

/-- C1 counterexample to the claim as stated: a process that completes
normally with its own exit code 124 produces the sentinel 124 from a
normal non-zero process exit, and its stderr does not end with the
`[timeout]` marker. -/
theorem runCmd_sentinel_cex :
    ( runCmd (.completed 124 "" "x" 0)).exit = 124 ∧
    ¬ (∃ t, ( runCmd (.completed 124 "" "x" 0)).stderr = t ++ "[timeout]") := by
  refine ⟨rfl, ?_⟩
  rintro ⟨t, ht⟩
  have hs : ( runCmd (.completed 124 "" "x" 0)).stderr = "x" := rfl
  rw [hs] at ht
  have hlen := congrArg String.length ht
  rw [String.length_append] at hlen
  have hx : ("x" : String).length = 1 := rfl
  have hm : ("[timeout]" : String).length = 9 := rfl
  omega

/-- C2 (amended): the appended record's sequence number is exactly
`_next_record_number` of the current ledger, which is 1 when the ledger is
absent or has fewer than two non-blank lines, and otherwise is one plus the
number recorded in the *last* data row when that parses as an integer (not
one plus the maximum of all recorded numbers, which coincides only when the
last row carries the maximum). -/
theorem append_seq_spec (ledger : Option (List String)) (latest : Option ScratchFiles)
    (fw_base brand : String) (exit_code : Int) :
    (append_emulation_record ledger latest fw_base brand exit_code).number =
      _next_record_number ledger ∧
    (ledger = none → _next_record_number ledger = 1) ∧
    (∀ lines, ledger = some lines →
      ((lines.map pyStrip).filter (fun r => r != "")).length < 2 →
      _next_record_number ledger = 1) ∧
    (∀ lines n, ledger = some lines →
      2 ≤ ((lines.map pyStrip).filter (fun r => r != "")).length →
      parseIntOpt (firstField (((lines.map pyStrip).filter (fun r => r != "")).getLastD "")) = some n →
      _next_record_number ledger = n + 1) := by
  refine ⟨?_, ?_, ?_, ?_⟩
  · cases latest <;> rfl
  · intro h; subst h; rfl
  · intro lines h hlen
    subst h
    simp only [_next_record_number]
    rw [if_neg (by omega)]
  · intro lines n h hlen hparse
    subst h
    simp only [_next_record_number]
    rw [if_pos hlen, hparse]

/-- Witness for the amended C2 theorem: a ledger with a header and one data
row numbered 1 yields sequence number 2 for the next append. -/
theorem append_seq_spec_witness :
    (append_emulation_record
        (some ["number,firmware_name,architecture,brand,ping,web,result",
               "1,fwa,mips,dlink,true,true,true"])
        none "fw" "dlink" 0).number = 2 ∧
    _next_record_number
        (some ["number,firmware_name,architecture,brand,ping,web,result",
               "1,fwa,mips,dlink,true,true,true"]) = 2 := by
  have h := append_seq_spec
      (some ["number,firmware_name,architecture,brand,ping,web,result",
             "1,fwa,mips,dlink,true,true,true"])
      none "fw" "dlink" 0
  have h2 := h.2.2.2 _ 1 rfl (by decide) (by decide)
  exact ⟨h.1.trans h2, h2⟩

/-- C2 counterexample to the claim as stated: with data rows numbered 5 then
3 (the last row not the maximum), append assigns 4, while one plus the
maximum of all recorded sequence numbers would be 6. -/
theorem append_seq_cex :
    (append_emulation_record
        (some ["number,firmware_name,architecture,brand,ping,web,result",
               "5,fwa,mips,dlink,true,true,true",
               "3,fwb,mips,dlink,true,true,true"])
        none "fw" "dlink" 0).number = 4 ∧
    specMaxRecordedSeq
        (some ["number,firmware_name,architecture,brand,ping,web,result",
               "5,fwa,mips,dlink,true,true,true",
               "3,fwb,mips,dlink,true,true,true"]) = some 5 ∧
    (4 : Int) ≠ 5 + 1 := by
  refine ⟨rfl, rfl, by decide⟩

/-- C3 (amended): a parsed message with no identifier and a truthy method
name is dropped with no reply for every method name other than `"ping"`;
(a `ping` without identifier is answered with the sentinel identifier 0, see
the counterexample). -/
theorem notification_drop_spec (msg : Msg) (h : HandlerOutcome)
    (hid : msg.id = none) (hm : methodTruthy msg.method = true)
    (hping : msg.method ≠ some "ping") :
    dispatchMsg msg h = [] := by
  unfold dispatchMsg
  rw [if_neg hping, if_pos ⟨hid, hm⟩]

/-- Witness for the amended C3 theorem: an id-less `tools/call` produces no
output at all. -/
theorem notification_drop_spec_witness :
    dispatchMsg ⟨none, some "tools/call", ⟨some "firmae.help", none⟩⟩
      (.returns ⟨["ok"], false⟩) = [] :=
  notification_drop_spec _ _ rfl rfl (by decide)

/-- C3 counterexample to the claim as stated: a message with method `"ping"`
and no identifier is *not* dropped — the loop's ping branch runs before the
notification check and emits a reply with the dummy identifier 0. -/
theorem notification_ping_cex :
    dispatchMsg ⟨none, some "ping", ⟨none, none⟩⟩ (.returns ⟨[], false⟩) =
      [RpcOut.result (some 0) .pingOk] ∧
    dispatchMsg ⟨none, some "ping", ⟨none, none⟩⟩ (.returns ⟨[], false⟩) ≠ [] := by
  refine ⟨rfl, by decide⟩

/-- C5 (amended): a `tools/call` request (identifier present) whose handler
raises is answered and the loop goes on reading: for a long-running tool the
worker thread's `run_and_reply` converts the exception into a normal reply
flagged `isError` with the text `"Internal error: ..."`; for an inline
(short) tool the exception escapes to the loop's outer handler, which
answers with a JSON-RPC *error* object (code -32603) instead of an
`isError` result; in both cases the loop processes every subsequent
message. -/
theorem toolcall_failure_spec (msg : Msg) (h : HandlerOutcome) (i : Int) (e : String)
    (hid : msg.id = some i) (hm : msg.method = some "tools/call")
    (hr : h = .raises e) :
    (msg.params.name.getD "" ∈ LONG_TOOLS →
      dispatchMsg msg h = [.result (some i) (.toolRes ⟨["Internal error: " ++ e], true⟩)]) ∧
    (msg.params.name.getD "" ∉ LONG_TOOLS →
      dispatchMsg msg h = [.rpcError (some i) (-32603) e]) ∧
    (∀ rest : List (Msg × HandlerOutcome),
      runLoop ((msg, h) :: rest) = dispatchMsg msg h ++ runLoop rest) := by
  subst hr
  refine ⟨?_, ?_, fun rest => rfl⟩
  · intro hlong
    simp [dispatchMsg, hm, hid, hlong]
  · intro hshort
    simp [dispatchMsg, hm, hid, hshort]

/-- Witness for the amended C5 theorem: a raising long-tool call gets an
`isError` reply; a raising short-tool call gets a -32603 error reply. -/
theorem toolcall_failure_spec_witness :
    dispatchMsg ⟨some 7, some "tools/call", ⟨some "firmae.emulate", none⟩⟩ (.raises "oops") =
      [RpcOut.result (some 7) (.toolRes ⟨["Internal error: oops"], true⟩)] ∧
    dispatchMsg ⟨some 8, some "tools/call", ⟨some "firmae.clean", none⟩⟩ (.raises "oops") =
      [RpcOut.rpcError (some 8) (-32603) "oops"] :=
  ⟨(toolcall_failure_spec ⟨some 7, some "tools/call", ⟨some "firmae.emulate", none⟩⟩
      _ 7 "oops" rfl rfl rfl).1 (by decide),
   (toolcall_failure_spec ⟨some 8, some "tools/call", ⟨some "firmae.clean", none⟩⟩
      _ 8 "oops" rfl rfl rfl).2.1 (by decide)⟩

/-- C5 counterexample to the claim as stated: a `tools/call` of the short
tool `firmae.clean` whose handler raises is answered with a JSON-RPC error
object, not with a normal reply carrying `isError=true` — no element of the
output is a result reply at all. -/
theorem toolcall_short_raise_cex :
    dispatchMsg ⟨some 1, some "tools/call", ⟨some "firmae.clean", none⟩⟩ (.raises "boom") =
      [RpcOut.rpcError (some 1) (-32603) "boom"] ∧
    (dispatchMsg ⟨some 1, some "tools/call", ⟨some "firmae.clean", none⟩⟩
        (.raises "boom")).all (fun o => !(isResultReply o)) = true := by
  refine ⟨rfl, rfl⟩

/-- If every value of the association list is `""`, then `get(key, "")` is
`""` whether the key is present or not. -/
theorem lookup_getD_all_empty (k : String) (l : List (String × String))
    (h : ∀ p ∈ l, p.2 = "") : (List.lookup k l).getD "" = "" := by
  induction l with
  | nil => rfl
  | cons p rest ih =>
    simp only [List.lookup]
    cases hk : k == p.1
    · simpa only [hk] using ih (fun q hq => h q (List.mem_cons_of_mem p hq))
    · simpa only [hk] using h p (List.mem_cons_self p rest)

/-- C4: the Log Classifier is a pure function (identical bundles give
identical, identically ordered reports); its output is sorted as Python
text and duplicate-free; and a bundle whose values are all empty yields the
empty report. -/
theorem analyze_logs_det_sorted (b : List (String × String)) :
    _analyze_logs b = _analyze_logs b ∧
    List.Sorted (fun x y => pyLe x y = true) (_analyze_logs b) ∧
    (_analyze_logs b).Nodup ∧
    ((∀ p ∈ b, p.2 = "") → _analyze_logs b = []) := by
  refine ⟨rfl, List.sorted_insertionSort _ _,
    ((List.perm_insertionSort _ _).nodup_iff).mpr (List.nodup_dedup _), ?_⟩
  intro hb
  have hv : ((b.map Prod.snd).filter (fun v => v != "")) = [] := by
    rw [List.filter_eq_nil_iff]
    intro v hv
    obtain ⟨p, hp, rfl⟩ := List.mem_map.mp hv
    simp [hb p hp]
  have hc : combinedText b = "" := by
    unfold combinedText
    rw [hv]
    rfl
  have hmk : (List.lookup "makeNetwork.log" b).getD "" = "" :=
    lookup_getD_all_empty _ _ hb
  have hraw : rawReasons b = [] := by
    unfold rawReasons
    rw [if_neg (by rintro ⟨h1, -, -⟩; exact h1 hmk), hc]
    rfl
  unfold _analyze_logs
  rw [hraw]
  rfl

/-- Witness for the C4 theorem: the all-empty LogBundle over the four fixed
log names yields the empty report. -/
theorem analyze_logs_det_sorted_witness :
    _analyze_logs [("makeImage.log", ""), ("makeNetwork.log", ""),
      ("qemu.final.serial.log", ""), ("emulation.log", "")] = [] :=
  (analyze_logs_det_sorted _).2.2.2 (by decide)

/-- C7: on the LogBundle mapping `qemu.final.serial.log` to
`"Kernel panic - not syncing"` with all other logs empty, the classifier
returns exactly the one-element report `["QEMU boot/kernel failure"]`. -/
theorem analyze_kernel_panic_scenario :
    _analyze_logs [("makeImage.log", ""), ("makeNetwork.log", ""),
      ("qemu.final.serial.log", "Kernel panic - not syncing"), ("emulation.log", "")] =
      ["QEMU boot/kernel failure"] := by
  rfl

/-- C8: whenever `makeNetwork.log` matches the reachable-address pattern and
no log text matches `Web service on .*`, the report includes the label
`"Network reachable but web service not detected"`. -/
theorem analyze_reachable_no_web (b : List (String × String))
    (hip : regexSearch false ipPattern ((List.lookup "makeNetwork.log" b).getD "") = true)
    (hweb : regexSearch false webOnPattern (combinedText b) = false) :
    "Network reachable but web service not detected" ∈ _analyze_logs b := by
  have hmk : (List.lookup "makeNetwork.log" b).getD "" ≠ "" := by
    intro h0
    rw [h0] at hip
    exact absurd hip (by decide)
  unfold _analyze_logs
  rw [List.mem_insertionSort, List.mem_dedup]
  unfold rawReasons
  rw [if_pos ⟨hmk, hip, hweb⟩]
  exact List.mem_append_right _ (List.mem_singleton_self _)

/-- Witness for the C8 theorem: the scenario bundle with
`makeNetwork.log = "Network reachable on 10.0.0.1"` and all other logs
empty includes the label. -/
theorem analyze_reachable_no_web_witness :
    "Network reachable but web service not detected" ∈
      _analyze_logs [("makeImage.log", ""),
        ("makeNetwork.log", "Network reachable on 10.0.0.1"),
        ("qemu.final.serial.log", ""), ("emulation.log", "")] :=
  analyze_reachable_no_web _ (by rfl) (by rfl)

/-- C6: `kb_insert_analysis` stores over-long content as exactly the first
`max_content` characters plus the truncation marker, stores content at or
under the maximum verbatim, and hence every stored content is at most
`max_content` plus the marker length long. -/
theorem insert_analysis_truncation (db : KBState) (now_iso : String) (run_id : Nat)
    (source : String) (summary : Option String) (content : List Char)
    (reasons_json : Option String) (max_content : Nat) :
    lastAnalysisContent
        (kb_insert_analysis db now_iso run_id source summary content reasons_json max_content).1
      = some (kb_bounded content max_content) ∧
    (content.length ≤ max_content → kb_bounded content max_content = content) ∧
    (max_content < content.length →
      kb_bounded content max_content = content.take max_content ++ TRUNC_MARKER ∧
      (kb_bounded content max_content).length = max_content + TRUNC_MARKER.length) ∧
    (kb_bounded content max_content).length ≤ max_content + TRUNC_MARKER.length := by
  refine ⟨?_, ?_, ?_, ?_⟩
  · simp [kb_insert_analysis, lastAnalysisContent, List.getLast?_concat]
  · intro h
    unfold kb_bounded
    rw [if_pos h]
  · intro h
    have hn : ¬ content.length ≤ max_content := by omega
    unfold kb_bounded
    rw [if_neg hn]
    refine ⟨rfl, ?_⟩
    rw [List.length_append, List.length_take]
    omega
  · by_cases h : content.length ≤ max_content
    · unfold kb_bounded
      rw [if_pos h]
      omega
    · unfold kb_bounded
      rw [if_neg h, List.length_append, List.length_take]
      omega

/-- Witness for the C6 theorem: content of length 5 against maximum 3 is
stored as its first 3 characters plus the marker; content of length 2 is
stored verbatim. -/
theorem insert_analysis_truncation_witness :
    lastAnalysisContent
        (kb_insert_analysis ⟨false, none, none, none⟩ "2025-01-01T00:00:00" 1
          "heuristic" none "abcde".data none 3).1
      = some ("abc".data ++ TRUNC_MARKER) ∧
    kb_bounded "abcde".data 3 = "abc".data ++ TRUNC_MARKER ∧
    kb_bounded "ab".data 3 = "ab".data := by
  refine ⟨?_, ?_, ?_⟩
  · have h := (insert_analysis_truncation ⟨false, none, none, none⟩ "2025-01-01T00:00:00" 1
      "heuristic" none "abcde".data none 3).1
    have h2 := ((insert_analysis_truncation ⟨false, none, none, none⟩ "2025-01-01T00:00:00" 1
      "heuristic" none "abcde".data none 3).2.2.1 (by decide)).1
    rw [h, h2]
    rfl
  · exact ((insert_analysis_truncation ⟨false, none, none, none⟩ "2025-01-01T00:00:00" 1
      "heuristic" none "abcde".data none 3).2.2.1 (by decide)).1
  · exact (insert_analysis_truncation ⟨false, none, none, none⟩ "2025-01-01T00:00:00" 1
      "heuristic" none "ab".data none 3).2.1 (by decide)

/-- C9: `kb_init` is idempotent — running it twice leaves the schema (all
three tables) and every existing row exactly as one run leaves them. -/
theorem kb_init_idempotent (db : KBState) : kb_init (kb_init db) = kb_init db := by
  simp [kb_init]

/-- C10: `_safe_tail` is total and never raises; a missing file yields the
empty string, while a file that exists but whose read fails yields a
non-empty bracketed description beginning `"[could not read"` — which
downstream consumers, treating any non-empty value as log text, cannot
distinguish from genuine log content. -/
theorem safe_tail_spec (path : String) (fs : FileState) (max_bytes max_lines : Nat) :
    (fs = FileState.absent → _safe_tail path fs max_bytes max_lines = "") ∧
    (∀ e, fs = FileState.readError e →
      _safe_tail path fs max_bytes max_lines ≠ "" ∧
      ∃ t, _safe_tail path fs max_bytes max_lines = "[could not read" ++ t) := by
  refine ⟨?_, ?_⟩
  · intro h; subst h; rfl
  · intro e h; subst h
    have hs : _safe_tail path (FileState.readError e) max_bytes max_lines
        = "[could not read " ++ path ++ ": " ++ e ++ "]" := rfl
    constructor
    · intro h0
      rw [hs] at h0
      have hlen := congrArg String.length h0
      simp only [String.length_append] at hlen
      have h1 : ("[could not read " : String).length = 16 := rfl
      have h2 : (": " : String).length = 2 := rfl
      have h3 : ("]" : String).length = 1 := rfl
      have h4 : ("" : String).length = 0 := rfl
      omega
    · refine ⟨" " ++ path ++ ": " ++ e ++ "]", ?_⟩
      rw [hs]
      apply String.ext
      simp only [String.data_append]
      simp [List.append_assoc]

/-- Witness for the C10 theorem: a missing file gives `""`; a permission
failure gives a non-empty bracketed message. -/
theorem safe_tail_spec_witness :
    _safe_tail "/scratch/1/emulation.log" FileState.absent 64000 200 = "" ∧
    _safe_tail "/scratch/1/emulation.log" (FileState.readError "Permission denied") 64000 200 ≠ "" :=
  ⟨(safe_tail_spec "/scratch/1/emulation.log" FileState.absent 64000 200).1 rfl,
   ((safe_tail_spec "/scratch/1/emulation.log" (FileState.readError "Permission denied")
      64000 200).2 "Permission denied" rfl).1⟩
